import Mathlib

/-!
Verification of the core concurrency and protocol logic of the `quarrel`
Discord client library (files `quarrel/http.py`, `quarrel/gateway.py`,
`quarrel/bot.py`), as a shallow embedding in Lean 4.

Conventions of the embedding:
* machine floats for times and durations become exact numbers — `ℤ` in
  the HTTP model and `ℚ` where division occurs (heartbeat interval,
  `perf_counter` values); no claim here depends on float rounding;
* Python dictionaries become association lists (`List (String × α)`) with
  latest-insertion-wins lookup helpers;
* Python object identity for `Bucket` objects becomes a heap of
  `BucketState` values indexed by an allocation counter (`Nat` ids);
* `await` suspension points of the `asyncio` event loop become explicit
  program counters in the small-step interpreter `stepTask`, so that an
  interleaving of tasks is a list of task indices (a schedule);
* `asyncio.Event` is a boolean `gate` flag: `is_set` reads it, `set`/`clear`
  write it, and a task suspended in `wait()` is runnable exactly when the
  flag is `true` (this is the documented semantics of `asyncio.Event.wait`:
  it returns immediately if the event is set, otherwise blocks until
  `set()` is called);
* side effects that the claims talk about (sending on the transport,
  sleeping, scheduling a timer callback, setting/clearing the global gate)
  are recorded as an explicit action trace.
-/

namespace Quarrel

/-- Lookup in an association list (Python `dict.get`). -/
def alistGet {α : Type} (m : List (String × α)) (k : String) : Option α :=
  (m.find? (fun p => p.1 = k)).map Prod.snd

/-- Insert/overwrite in an association list (Python `dict[k] = v`). -/
def alistInsert {α : Type} (m : List (String × α)) (k : String) (v : α) :
    List (String × α) :=
  (k, v) :: m.filter (fun p => p.1 ≠ k)

/-- Remove a key from an association list (Python `dict.pop` / `del`). -/
def alistErase {α : Type} (m : List (String × α)) (k : String) :
    List (String × α) :=
  m.filter (fun p => p.1 ≠ k)

/-- Python `f"{x}"` rendering of an `Optional[int]`: `None` prints as
`"None"`. -/
def optNatStr : Option Nat → String
  | none => "None"
  | some n => toString n

/-- Python `f"{x}"` rendering of an `Optional[str]`. -/
def optStrStr : Option String → String
  | none => "None"
  | some s => s

/-- The body of an HTTP response, as `HTTP.request` decodes it: a JSON
document when the `content-type` is `application/json`, raw text otherwise.
Of the JSON fields only the ones `Bucket.handle_ratelimit` reads are kept:
`data.get("global")` and `data["retry_after"]`. -/
inductive RespData
  | text (s : String)
  | json (global_ : Bool) (retry_after : ℤ)
  deriving DecidableEq, Repr

/-- An HTTP response as seen by `Bucket.handle_ratelimit` and the status
dispatch in `HTTP.request`: the status code and the rate-limit headers
(`none` = header absent). -/
structure Resp where
  status : Nat
  remaining : Option Int := none
  limit : Option Int := none
  reset : Option ℤ := none
  reset_after : Option ℤ := none
  bucketHeader : Option String := none
  globalHeader : Bool := false
  data : RespData := .json false 0
  deriving DecidableEq, Repr

/-- The typed errors raised by `HTTP.request` (quarrel/errors.py). -/
inductive ReqError
  | badRequest
  | unauthorized
  | forbidden
  | notFound
  | methodNotAllowed
  | serverError
  | httpException
  deriving DecidableEq, Repr

/-- The mutable per-bucket state of `Bucket.__init__` (http.py).  The
`asyncio.Lock` is embedded as the boolean `locked` (the waiter queue is
represented by the blocked tasks of the interpreter below). -/
structure BucketState where
  route_key : String
  key : String
  release_immediately : Bool
  locked : Bool
  limit : Option Int
  remaining : Option Int
  reset : Option ℤ
  reset_after : Option ℤ
  bucket : Option String
  global_ : Bool
  deriving DecidableEq, Repr

/-- `Bucket.__init__`: a fresh bucket with `release_immediately = True`, an
unlocked lock and no learned rate-limit data. -/
def Bucket.init (route_key key : String) (g : Bool) : BucketState :=
  { route_key := route_key, key := key, release_immediately := true,
    locked := false, limit := none, remaining := none, reset := none,
    reset_after := none, bucket := none, global_ := g }

/-- The process-wide state of `HTTP.__init__` shared by all buckets:
`self.buckets` (key → bucket object), `self.route_buckets`
(route key → learned bucket id), and the `asyncio.Event`
`self.global_ratelimit` (`gate = is_set`).  Bucket objects live in the
heap `objs` keyed by an allocation counter so that Python object identity
is observable. -/
structure Shared where
  buckets : List (String × Nat)
  route_buckets : List (String × String)
  objs : List (Nat × BucketState)
  gate : Bool
  nextId : Nat
  deriving DecidableEq, Repr

/-- The empty `HTTP` state. -/
def Shared.init : Shared :=
  { buckets := [], route_buckets := [], objs := [], gate := false,
    nextId := 0 }

/-- Read a bucket object from the heap. -/
def Shared.obj (sh : Shared) (bid : Nat) : Option BucketState :=
  (sh.objs.find? (fun p => p.1 = bid)).map Prod.snd

/-- Write a bucket object back to the heap. -/
def Shared.setObj (sh : Shared) (bid : Nat) (b : BucketState) : Shared :=
  { sh with objs := (bid, b) :: sh.objs.filter (fun p => p.1 ≠ bid) }

/-- `Bucket.bucket_key`: the string
`f"{bucket}___{channel_id}/{guild_id}/{webhook_id}/{webhook_token}"`. -/
def bucket_key (bucket : String) (channel_id guild_id webhook_id : Option Nat)
    (webhook_token : Option String) : String :=
  bucket ++ "___" ++ optNatStr channel_id ++ "/" ++ optNatStr guild_id ++ "/"
    ++ optNatStr webhook_id ++ "/" ++ optStrStr webhook_token

/-- `Bucket.from_major_parameters`: compute the provisional-or-learned key,
return the registered bucket for it, creating and registering a fresh one
if none exists.  Returns the bucket object id and the updated shared
state. -/
def from_major_parameters (sh : Shared) (route_key : String) (g : Bool)
    (channel_id guild_id webhook_id : Option Nat)
    (webhook_token : Option String) : Nat × Shared :=
  let key := bucket_key ((alistGet sh.route_buckets route_key).getD route_key)
    channel_id guild_id webhook_id webhook_token
  match alistGet sh.buckets key with
  | some bid => (bid, sh)
  | none =>
    let bid := sh.nextId
    let b := Bucket.init route_key key g
    (bid, { sh with
      buckets := alistInsert sh.buckets key bid,
      objs := (bid, b) :: sh.objs,
      nextId := sh.nextId + 1 })

/-- The recorded side effects of the HTTP layer. -/
inductive Act
  | acquire (bid : Nat)
  | gateWaitReturned
  | send (tryIdx : Nat)
  | sleep (d : ℤ)
  | gateSet
  | gateClear
  | scheduleRelease (bid : Nat) (d : ℤ)
  | release (bid : Nat)
  | scheduleExpire (bid : Nat) (d : ℤ)
  | expireNow (bid : Nat)
  | pyTypeError
  deriving DecidableEq, Repr

/-- `Bucket.delay_amount`.  Python's `or` falls through on a *falsy*
`reset_after`, i.e. on `None` and on `0.0`; if both `reset_after` is falsy
and `reset` is `None` (with the leading guard passed), `float(None)` would
raise `TypeError`, modelled as `none`. -/
def delay_amount (b : BucketState) (now : ℤ) : Option ℤ :=
  if b.reset_after = none ∧ b.reset = none then some 0
  else if b.reset_after ≠ none ∧ b.reset_after ≠ some 0 then
    b.reset_after
  else match b.reset with
    | some r => some (r - now)
    | none => none

/-- `Bucket.delay_release`: mark the bucket as not releasing on context
exit, and schedule a `release` timer callback after `delay_amount`. -/
def delay_release (b : BucketState) (bid : Nat) (now : ℤ) :
    BucketState × List Act :=
  let b := { b with release_immediately := false }
  match delay_amount b now with
  | some d => (b, [.scheduleRelease bid d])
  | none => (b, [.pyTypeError])

/-- `Bucket.release`: release the lock, then (when the lock is uncontended)
either expire the bucket now or schedule its expiry after `delay_amount`.
`contended` stands for `self.lock._waiters or self.lock.locked()` as seen
after the release. -/
def Bucket.release (b : BucketState) (sh : Shared) (bid : Nat) (now : ℤ)
    (contended : Bool) : BucketState × Shared × List Act :=
  let b := { b with locked := false }
  if contended then (b, sh, [.release bid])
  else match delay_amount b now with
    | some d =>
      if d > 0 then (b, sh, [.release bid, .scheduleExpire bid d])
      else (b, { sh with buckets := alistErase sh.buckets b.key },
        [.release bid, .expireNow bid])
    | none => (b, sh, [.release bid, .pyTypeError])

/-- `Bucket.__aexit__`: release only when `release_immediately` still
holds. -/
def Bucket.aexit (b : BucketState) (sh : Shared) (bid : Nat) (now : ℤ)
    (contended : Bool) : BucketState × Shared × List Act :=
  if b.release_immediately then Bucket.release b sh bid now contended
  else (b, sh, [])

/-- What `Bucket.handle_ratelimit` asks its caller (the surrounding
coroutine) to do after its synchronous part ran: nothing special, raise
(429 with a plain-text body), or perform the 429 sleep (setting the gate
first and clearing it afterwards when the limit was global). -/
inductive HrlOutcome
  | normal
  | raised (e : ReqError)
  | sleep429 (global_ : Bool) (retry_after : ℤ)
  deriving DecidableEq, Repr

/-- The header-update prefix of `Bucket.handle_ratelimit`: copy each
`X-RateLimit-*` header that is present into the bucket's fields. -/
def hrl_headers (b : BucketState) (r : Resp) : BucketState :=
  let b := match r.remaining with
    | some v => { b with remaining := some v } | none => b
  let b := match r.limit with
    | some v => { b with limit := some v } | none => b
  let b := match r.reset with
    | some v => { b with reset := some v } | none => b
  match r.reset_after with
    | some v => { b with reset_after := some v } | none => b

/-- Characters remaining after the first occurrence of `"___"`, `none`
when the separator does not occur.  Structural recursion so that it
evaluates inside the kernel. -/
def afterSep : List Char → Option (List Char)
  | '_' :: '_' :: '_' :: rest => some rest
  | _ :: cs => afterSep cs
  | [] => none

/-- Characters before the first occurrence of `"___"` (all of them when
the separator does not occur). -/
def upToSep : List Char → List Char
  | '_' :: '_' :: '_' :: _ => []
  | c :: cs => c :: upToSep cs
  | [] => []

/-- Python `s.split("___")[1]`: the segment between the first and the
second occurrence of `"___"`.  Keys built by `bucket_key` contain the
separator (exactly once for the ids Discord issues), so the Python
`IndexError` case (no separator at all) is unreachable where this is
called; it is mapped to `""`. -/
def pySplitSep1 (s : String) : String :=
  ⟨((afterSep s.data).map upToSep).getD []⟩

/-- The bucket-id discovery step of `Bucket.handle_ratelimit`: on the
first response disclosing `X-RateLimit-Bucket`, record the mapping in
`route_buckets`, pop the bucket from the registry, rename its key to
`bucket + self.key.split("___")[1]` (the source concatenates without a
separator) and re-register it under the new key. -/
def hrl_migrate (b : BucketState) (sh : Shared) (bid : Nat) (r : Resp) :
    BucketState × Shared :=
  match r.bucketHeader with
  | some bk =>
    if b.bucket = none then
      let b := { b with bucket := some bk }
      let sh := { sh with
        route_buckets := alistInsert sh.route_buckets b.route_key bk,
        buckets := alistErase sh.buckets b.key }
      let b := { b with key := bk ++ pySplitSep1 b.key }
      (b, { sh with buckets := alistInsert sh.buckets b.key bid })
    else (b, sh)
  | none => (b, sh)

/-- The synchronous part of `Bucket.handle_ratelimit`, up to (and
including) `global_ratelimit.set()`: update the bucket fields from
headers, migrate on first bucket-id disclosure, call `delay_release` when
`remaining == 0`; on a 429 either raise (text body) or instruct the caller
to sleep `retry_after` (setting the global gate first when the response
marks a global limit; the caller clears it after the sleep). -/
def handle_ratelimit_sync (b : BucketState) (sh : Shared) (bid : Nat)
    (r : Resp) (now : ℤ) : BucketState × Shared × List Act × HrlOutcome :=
  let b := hrl_headers b r
  let (b, sh) := hrl_migrate b sh bid r
  let (b, acts1) :=
    if b.remaining = some 0 then delay_release b bid now else (b, [])
  if r.status = 429 then
    match r.data with
    | .text _ => (b, sh, acts1, .raised .httpException)
    | .json g ra =>
      let g := r.globalHeader && g
      if g then
        (b, { sh with gate := true }, acts1 ++ [.gateSet], .sleep429 g ra)
      else
        (b, sh, acts1, .sleep429 g ra)
  else
    (b, sh, acts1, .normal)

/-- The observable outcome of one full `HTTP.request` call: the ordered
side-effect trace, the returned value or raised error, and the final
shared/bucket state. -/
structure ReqOutcome where
  acts : List Act
  result : Except ReqError RespData
  sh : Shared
  b : BucketState
  deriving Repr

/-- One iteration of the `for try_ in range(3)` loop of `HTTP.request`
after `handle_ratelimit` ran: the status dispatch.  Returns either a final
result or the signal to continue with the next attempt (with the sleep the
iteration performed, if any). -/
inductive LoopStep
  | finish (r : Except ReqError RespData)
  | continue_ (sleeps : List Act)
  deriving Repr

/-- The status classification of `HTTP.request` (run after
`bucket.handle_ratelimit` returned without raising).  `tryIdx` is the loop
variable `try_`. -/
def classify (r : Resp) (tryIdx : Nat) : LoopStep :=
  if 200 ≤ r.status ∧ r.status < 300 then .finish (.ok r.data)
  else if r.status = 400 then .finish (.error .badRequest)
  else if r.status = 401 then .finish (.error .unauthorized)
  else if r.status = 403 then .finish (.error .forbidden)
  else if r.status = 404 then .finish (.error .notFound)
  else if r.status = 405 then .finish (.error .methodNotAllowed)
  else if r.status = 500 ∨ r.status = 502 ∨ r.status = 504 then
    .continue_ [.sleep (1 + tryIdx)]
  else if 500 ≤ r.status then .finish (.error .serverError)
  else if r.status ≠ 429 then .finish (.error .httpException)
  else .continue_ []

/-- The error `HTTP.request` raises after the loop exhausts all three
attempts without returning: `ServerError` when the last status was ≥ 500,
otherwise `HTTPException`. -/
def exhaustError (lastStatus : Nat) : ReqError :=
  if 500 ≤ lastStatus then .serverError else .httpException

/-- The attempt loop of `HTTP.request`: `fuel` counts the remaining
iterations of `for try_ in range(3)` and `tryIdx` the current value of
`try_`.  `resps i` is the transport's response to attempt `i`.  Each
iteration sends, runs `handle_ratelimit` (including its 429 gate/sleep
protocol), then classifies the status. -/
def requestLoop (resps : Nat → Resp) (bid : Nat) (now : ℤ) :
    Nat → Nat → BucketState → Shared → List Act →
      (BucketState × Shared × List Act × Except ReqError RespData × Nat)
  | 0, tryIdx, b, sh, acts =>
    (b, sh, acts, .error (exhaustError (resps (tryIdx - 1)).status), tryIdx)
  | fuel + 1, tryIdx, b, sh, acts =>
    let r := resps tryIdx
    let acts := acts ++ [.send tryIdx]
    let (b, sh, hacts, oc) := handle_ratelimit_sync b sh bid r now
    let acts := acts ++ hacts
    match oc with
    | .raised e => (b, sh, acts, .error e, tryIdx)
    | .sleep429 g ra =>
      let acts := acts ++ [.sleep ra] ++ (if g then [.gateClear] else [])
      let sh := if g then { sh with gate := false } else sh
      match classify r tryIdx with
      | .finish res => (b, sh, acts, res, tryIdx)
      | .continue_ s => requestLoop resps bid now fuel (tryIdx + 1) b sh
          (acts ++ s)
    | .normal =>
      match classify r tryIdx with
      | .finish res => (b, sh, acts, res, tryIdx)
      | .continue_ s => requestLoop resps bid now fuel (tryIdx + 1) b sh
          (acts ++ s)

/-- `Bucket.__aenter__` as a trace: acquire the lock, then — when the
global gate (`global_ratelimit.is_set()`) is set and the bucket is global —
call `Event.wait()`, which returns at once precisely because the event is
set (so the "wait" never delays the caller). -/
def enterActs (sh : Shared) (b : BucketState) (bid : Nat) : List Act :=
  [Act.acquire bid] ++
    (if sh.gate && b.global_ then [Act.gateWaitReturned] else [])

/-- The epilogue of `HTTP.request`: run `Bucket.__aexit__` (which runs
both on return and on raise) and package the outcome. -/
def afterLoop (bid : Nat) (now : ℤ)
    (t : BucketState × Shared × List Act × Except ReqError RespData × Nat) :
    ReqOutcome :=
  let (b, sh, acts, res, _) := t
  let (b, sh, exitActs) := Bucket.aexit b sh bid now false
  { acts := acts ++ exitActs, result := res, sh := sh.setObj bid b, b := b }

/-- A full `HTTP.request` call on shared state `sh`: resolve the bucket
via `from_major_parameters`, enter the bucket (`__aenter__`), run the
three-attempt loop, and exit the bucket (`__aexit__`). -/
def http_request (sh : Shared) (route_key : String) (g : Bool)
    (channel_id guild_id webhook_id : Option Nat)
    (webhook_token : Option String) (resps : Nat → Resp) (now : ℤ) :
    ReqOutcome :=
  let (bid, sh) := from_major_parameters sh route_key g channel_id guild_id
    webhook_id webhook_token
  let b := (sh.obj bid).getD (Bucket.init route_key "" g)
  let b := { b with locked := true }
  afterLoop bid now (requestLoop resps bid now 3 0 b sh (enterActs sh b bid))

/-- Number of physical transport sends in a trace. -/
def sendCount (acts : List Act) : Nat :=
  (acts.filter (fun a => match a with | .send _ => true | _ => false)).length

/-- The sleep durations of a trace, in order. -/
def sleepsOf (acts : List Act) : List ℤ :=
  acts.filterMap (fun a => match a with | .sleep d => some d | _ => none)

/-- A bare 502 response (no rate-limit headers). -/
def resp502 : Resp := { status := 502 }

/-- A plain 2xx response. -/
def resp200 : Resp := { status := 200 }

/-- A global 429: `X-RateLimit-Global` header present, JSON body with
`"global": true` and `"retry_after": 5`. -/
def resp429global : Resp :=
  { status := 429, globalHeader := true, data := .json true 5 }

@[simp] lemma sendCount_nil : sendCount [] = 0 := rfl

@[simp] lemma sendCount_send (i : Nat) (l : List Act) :
    sendCount (Act.send i :: l) = sendCount l + 1 := rfl

@[simp] lemma sendCount_sleep (d : ℤ) (l : List Act) :
    sendCount (Act.sleep d :: l) = sendCount l := rfl

@[simp] lemma sendCount_acquire (i : Nat) (l : List Act) :
    sendCount (Act.acquire i :: l) = sendCount l := rfl

@[simp] lemma sendCount_gateWait (l : List Act) :
    sendCount (Act.gateWaitReturned :: l) = sendCount l := rfl

@[simp] lemma sendCount_gateSet (l : List Act) :
    sendCount (Act.gateSet :: l) = sendCount l := rfl

@[simp] lemma sendCount_gateClear (l : List Act) :
    sendCount (Act.gateClear :: l) = sendCount l := rfl

@[simp] lemma sendCount_schedRel (i : Nat) (d : ℤ) (l : List Act) :
    sendCount (Act.scheduleRelease i d :: l) = sendCount l := rfl

@[simp] lemma sendCount_release (i : Nat) (l : List Act) :
    sendCount (Act.release i :: l) = sendCount l := rfl

@[simp] lemma sendCount_schedExp (i : Nat) (d : ℤ) (l : List Act) :
    sendCount (Act.scheduleExpire i d :: l) = sendCount l := rfl

@[simp] lemma sendCount_expireNow (i : Nat) (l : List Act) :
    sendCount (Act.expireNow i :: l) = sendCount l := rfl

@[simp] lemma sendCount_pyTypeError (l : List Act) :
    sendCount (Act.pyTypeError :: l) = sendCount l := rfl

@[simp] lemma sendCount_append (a b : List Act) :
    sendCount (a ++ b) = sendCount a + sendCount b := by
  simp [sendCount, List.filter_append]

lemma sendCount_delay_release (b : BucketState) (bid : Nat) (now : ℤ) :
    sendCount (delay_release b bid now).2 = 0 := by
  unfold delay_release
  rcases h : delay_amount { b with release_immediately := false } now with
    _ | d <;> simp [h]

lemma sendCount_hrl (b : BucketState) (sh : Shared) (bid : Nat) (r : Resp)
    (now : ℤ) :
    sendCount (handle_ratelimit_sync b sh bid r now).2.2.1 = 0 := by
  unfold handle_ratelimit_sync
  rcases hm : hrl_migrate (hrl_headers b r) sh bid r with ⟨b2, sh2⟩
  rcases hd : (if b2.remaining = some 0 then delay_release b2 bid now
    else (b2, [])) with ⟨b3, acts1⟩
  have ha : sendCount acts1 = 0 := by
    split at hd
    · rw [show acts1 = (delay_release b2 bid now).2 from
        (congrArg Prod.snd hd).symm]
      exact sendCount_delay_release b2 bid now
    · injection hd with h1 h2
      subst h2
      rfl
  simp only [hm, hd]
  split
  · split
    · simpa using ha
    · split <;> simp [ha]
  · simpa using ha

lemma classify_continue_sendCount (r : Resp) (i : Nat) (s : List Act)
    (h : classify r i = .continue_ s) : sendCount s = 0 := by
  unfold classify at h
  iterate 10 (all_goals try split at h)
  all_goals try cases h
  all_goals simp_all

lemma requestLoop_sendCount (resps : Nat → Resp) (bid : Nat) (now : ℤ) :
    ∀ (fuel tryIdx : Nat) (b : BucketState) (sh : Shared) (acts : List Act),
      sendCount (requestLoop resps bid now fuel tryIdx b sh acts).2.2.1 ≤
        sendCount acts + fuel := by
  intro fuel
  induction fuel with
  | zero =>
    intro tryIdx b sh acts
    simp [requestLoop]
  | succ n ih =>
    intro tryIdx b sh acts
    have hh := sendCount_hrl b sh bid (resps tryIdx) now
    rcases heq : handle_ratelimit_sync b sh bid (resps tryIdx) now with
      ⟨b', sh', hacts, oc⟩
    rw [heq] at hh
    replace hh : sendCount hacts = 0 := hh
    unfold requestLoop
    simp only [heq]
    cases oc with
    | raised e =>
      simp [hh]
    | sleep429 g ra =>
      rcases hc : classify (resps tryIdx) tryIdx with res | s
      · simp only [hc]
        cases g <;> simp [hh]
      · have hs := classify_continue_sendCount _ _ _ hc
        simp only [hc]
        cases g <;>
          · refine le_trans (ih _ _ _ _) ?_
            simp [hh, hs]
            omega
    | normal =>
      rcases hc : classify (resps tryIdx) tryIdx with res | s
      · simp only [hc]
        simp [hh]
      · have hs := classify_continue_sendCount _ _ _ hc
        simp only [hc]
        refine le_trans (ih _ _ _ _) ?_
        simp [hh, hs]
        omega

lemma sendCount_aexit (b : BucketState) (sh : Shared) (bid : Nat) (now : ℤ)
    (c : Bool) : sendCount (Bucket.aexit b sh bid now c).2.2 = 0 := by
  unfold Bucket.aexit Bucket.release
  split
  · split
    · simp
    · rcases h : delay_amount { b with locked := false } now with _ | d
      · simp [h]
      · simp only [h]
        split <;> simp
  · simp

lemma sendCount_afterLoop (bid : Nat) (now : ℤ)
    (t : BucketState × Shared × List Act × Except ReqError RespData × Nat) :
    sendCount (afterLoop bid now t).acts = sendCount t.2.2.1 := by
  rcases t with ⟨b, sh, acts, res, ti⟩
  unfold afterLoop
  rcases hx : Bucket.aexit b sh bid now false with ⟨b2, sh2, ex⟩
  have h0 : sendCount ex = 0 := by
    rw [show ex = (Bucket.aexit b sh bid now false).2.2 from
      (congrArg (fun p => p.2.2) hx).symm]
    exact sendCount_aexit b sh bid now false
  simp [hx, h0]

lemma sendCount_enterActs (sh : Shared) (b : BucketState) (bid : Nat) :
    sendCount (enterActs sh b bid) = 0 := by
  unfold enterActs
  split <;> simp

/-- C5: every `HTTP.request` call sends at most three attempts (the
`for try_ in range(3)` cap), and a stream of 502 responses is handled as
transient: each attempt `i` sleeps `1 + i` seconds, the call performs
exactly three sends with sleeps `[1, 2, 3]`, raises `ServerError` after
the third 502, and never makes a fourth attempt. -/
theorem c5_transient_retry_cap :
    (∀ (sh : Shared) (rk : String) (g : Bool)
      (cid gid wid : Option Nat) (wt : Option String)
      (resps : Nat → Resp) (now : ℤ),
      sendCount (http_request sh rk g cid gid wid wt resps now).acts ≤ 3) ∧
    (http_request Shared.init "GET/c" true (some 1) none none none
        (fun _ => resp502) 0).result = .error .serverError ∧
    sendCount (http_request Shared.init "GET/c" true (some 1) none none none
        (fun _ => resp502) 0).acts = 3 ∧
    sleepsOf (http_request Shared.init "GET/c" true (some 1) none none none
        (fun _ => resp502) 0).acts = [1, 2, 3] := by
  refine ⟨?_, by rfl, by rfl, by decide⟩
  intro sh rk g cid gid wid wt resps now
  unfold http_request
  rcases hf : from_major_parameters sh rk g cid gid wid wt with ⟨bid, sh1⟩
  simp only [hf, sendCount_afterLoop]
  refine le_trans (requestLoop_sendCount resps bid now 3 0 _ _ _) ?_
  rw [sendCount_enterActs]

/-- C4 counterexample: a 429 *does* consume one of the three retry slots.
With three successive global 429 responses followed by a response that
would succeed, the call raises `HTTPException` after exactly three sends —
the fourth attempt (which would have returned 200) is never made, so the
attempt is *not* "retried regardless of attempt count". -/
theorem c4_counterexample_429_consumes_slot :
    (http_request Shared.init "GET/c" true (some 1) none none none
        (fun i => if i < 3 then resp429global else resp200) 0).result =
      .error .httpException ∧
    sendCount (http_request Shared.init "GET/c" true (some 1) none none none
        (fun i => if i < 3 then resp429global else resp200) 0).acts = 3 := by
  exact ⟨by rfl, by rfl⟩

/-- C4 (amended): on a 429 whose JSON body marks a global limit, the
executor sets the global gate, sleeps the server-declared `retry_after`,
then clears the gate, and retries the attempt — but only within the
remaining budget of the 3-attempt loop (each 429 consumes an attempt, and
after the third consecutive 429 the call raises `HTTPException`).  A
single global 429 followed by a 200 succeeds with two sends, the trace of
the first attempt being send, gate-set, sleep `retry_after`, gate-clear,
and the gate is clear again at the end. -/
theorem c4_amended_429_gate_protocol :
    (http_request Shared.init "GET/c" true (some 1) none none none
        (fun _ => resp429global) 0).acts =
      [.acquire 0, .send 0, .gateSet, .sleep 5, .gateClear,
       .send 1, .gateSet, .sleep 5, .gateClear,
       .send 2, .gateSet, .sleep 5, .gateClear,
       .release 0, .expireNow 0] ∧
    (http_request Shared.init "GET/c" true (some 1) none none none
        (fun _ => resp429global) 0).result = .error .httpException ∧
    (http_request Shared.init "GET/c" true (some 1) none none none
        (fun i => if i = 0 then resp429global else resp200) 0).result =
      .ok resp200.data ∧
    sendCount (http_request Shared.init "GET/c" true (some 1) none none none
        (fun i => if i = 0 then resp429global else resp200) 0).acts = 2 ∧
    (http_request Shared.init "GET/c" true (some 1) none none none
        (fun i => if i = 0 then resp429global else resp200) 0).sh.gate =
      false := by
  exact ⟨by decide, by rfl, by rfl, by rfl, by rfl⟩

/-- A 200 response whose headers disclose the real bucket id `"abc"`. -/
def respBucketAbc : Resp := { status := 200, bucketHeader := some "abc" }

/-- C7: evaluation of the migration at a concrete input.  Resolving
`("GET/c", channel 1)` creates bucket object `0` under provisional key
`"GET/c___1/None/None/None"`.  When a response discloses bucket id
`"abc"`, `handle_ratelimit` re-keys the object as
`"abc" + key.split("___")[1] = "abc1/None/None/None"` — without the
`"___"` separator — while the next `from_major_parameters` for the same
route and major parameters computes
`bucket_key("abc", 1, ...) = "abc___1/None/None/None"`, misses the
registry, and allocates a *fresh* bucket object `1` with a fresh lock.
The migrated bucket is therefore never found again, contradicting the
claim that every subsequent resolution yields the same `Bucket` (and the
same lock) as before the migration. -/
theorem c7_migration_loses_bucket :
    (from_major_parameters Shared.init "GET/c" true (some 1) none none
      none).1 = 0 ∧
    (let p := from_major_parameters Shared.init "GET/c" true (some 1) none
      none none
     let b := (p.2.obj p.1).getD (Bucket.init "" "" true)
     let h := handle_ratelimit_sync b p.2 p.1 respBucketAbc 0
     (h.1).key = "abc1/None/None/None" ∧
     alistGet h.2.1.buckets "abc1/None/None/None" = some 0 ∧
     alistGet h.2.1.route_buckets "GET/c" = some "abc" ∧
     bucket_key "abc" (some 1) none none none = "abc___1/None/None/None" ∧
     alistGet h.2.1.buckets "abc___1/None/None/None" = none ∧
     (from_major_parameters h.2.1 "GET/c" true (some 1) none none
       none).1 = 1) := by
  decide

lemma hrl_headers_flag (b : BucketState) (r : Resp) :
    (hrl_headers b r).release_immediately = b.release_immediately := by
  rcases r with ⟨st, rem, lim, rs, ra, bh, gh, d⟩
  unfold hrl_headers
  rcases rem <;> rcases lim <;> rcases rs <;> rcases ra <;> rfl

lemma hrl_migrate_flag (b : BucketState) (sh : Shared) (bid : Nat)
    (r : Resp) :
    ((hrl_migrate b sh bid r).1).release_immediately =
      b.release_immediately := by
  unfold hrl_migrate
  split <;> first | rfl | (split <;> rfl)

lemma delay_release_flag (b : BucketState) (bid : Nat) (now : ℤ) :
    ((delay_release b bid now).1).release_immediately = false := by
  unfold delay_release
  rcases h : delay_amount { b with release_immediately := false } now with
    _ | d <;> simp [h]

lemma release_flag (b : BucketState) (sh : Shared) (bid : Nat) (now : ℤ)
    (c : Bool) :
    ((Bucket.release b sh bid now c).1).release_immediately =
      b.release_immediately := by
  unfold Bucket.release
  split
  · rfl
  · rcases h : delay_amount { b with locked := false } now with _ | d
    · simp [h]
    · simp only [h]
      split <;> rfl

lemma hrl_flag (b : BucketState) (sh : Shared) (bid : Nat) (r : Resp)
    (now : ℤ) :
    ((handle_ratelimit_sync b sh bid r now).1).release_immediately =
        b.release_immediately ∨
      ((handle_ratelimit_sync b sh bid r now).1).release_immediately =
        false := by
  unfold handle_ratelimit_sync
  rcases hm : hrl_migrate (hrl_headers b r) sh bid r with ⟨b2, sh2⟩
  have hb2 : b2.release_immediately = b.release_immediately := by
    have h1 := congrArg (fun p => p.1.release_immediately) hm
    simp only at h1
    rw [← h1, hrl_migrate_flag, hrl_headers_flag]
  rcases hd : (if b2.remaining = some 0 then delay_release b2 bid now
    else (b2, [])) with ⟨b3, acts1⟩
  have hb3 : b3.release_immediately = b2.release_immediately ∨
      b3.release_immediately = false := by
    have h1 := congrArg (fun p => p.1.release_immediately) hd
    simp only at h1
    split at h1
    · right
      rw [← h1, delay_release_flag]
    · left
      rw [← h1]
  simp only [hm, hd]
  split
  · split
    · rcases hb3 with h | h
      · left
        rw [h, hb2]
      · right
        exact h
    · split <;>
        · rcases hb3 with h | h
          · left
            rw [h, hb2]
          · right
            exact h
  · rcases hb3 with h | h
    · left
      rw [h, hb2]
    · right
      exact h

/-- C9: `release_immediately` is a one-way latch.  It starts `true`
(`Bucket.__init__`); `delay_release` (invoked by `handle_ratelimit` when
a response reports `remaining == 0`) sets it `false` and schedules the
only release path, a `loop.call_later` timer callback; no bucket
operation (`handle_ratelimit`, `release`, `__aexit__`) ever sets it back
to `true`; and once it is `false`, `__aexit__` performs no action at all —
in particular it never releases the lock. -/
theorem c9_release_immediately_latch :
    (∀ rk k g, (Bucket.init rk k g).release_immediately = true) ∧
    (∀ b bid now,
      ((delay_release b bid now).1).release_immediately = false) ∧
    (∀ b sh bid r now,
      ((handle_ratelimit_sync b sh bid r now).1).release_immediately =
          b.release_immediately ∨
        ((handle_ratelimit_sync b sh bid r now).1).release_immediately =
          false) ∧
    (∀ b sh bid now c,
      ((Bucket.release b sh bid now c).1).release_immediately =
        b.release_immediately) ∧
    (∀ b sh bid now c,
      ((Bucket.aexit b sh bid now c).1).release_immediately =
        b.release_immediately) ∧
    (∀ (b : BucketState) (sh : Shared) (bid : Nat) (now : ℤ) (c : Bool),
      (Bucket.aexit { b with release_immediately := false } sh bid now
        c).2.2 = []) ∧
    (∀ b bid now,
      (delay_release b bid now).2 = [Act.scheduleRelease bid
          ((delay_amount { b with release_immediately := false }
            now).getD 0)] ∨
        (delay_release b bid now).2 = [Act.pyTypeError]) := by
  refine ⟨fun rk k g => rfl, delay_release_flag, hrl_flag, release_flag,
    ?_, ?_, ?_⟩
  · intro b sh bid now c
    unfold Bucket.aexit
    split
    · exact release_flag b sh bid now c
    · rfl
  · intro b sh bid now c
    simp [Bucket.aexit]
  · intro b bid now
    unfold delay_release
    rcases h : delay_amount { b with release_immediately := false } now with
      _ | d
    · right
      simp [h]
    · left
      simp [h]

/-! ## Gateway session model (quarrel/gateway.py, quarrel/bot.py)

Frames are tagged with the generation number of the socket they are sent
on (`gen`); `Gateway.connect` increments the generation.  Heartbeat
intervals are exact rationals (`ℚ`); the random first-heartbeat jitter and
real sleeping are recorded as actions, not simulated. -/

/-- The `d` payloads of the outbound control frames the handler builds
(`Heartbeat.send`, `GatewayHandler.resume`, `GatewayHandler.identify`). -/
inductive Payload
  | heartbeat (seq : Option Int)
  | identify (token : String) (compress : Bool) (large_threshold : Nat)
      (intents : Nat) (shard : Option (Nat × Nat))
  | resume (seq : Option Int) (session_id : Option String) (token : String)
  deriving DecidableEq, Repr

/-- An outbound frame `{"op": op, "d": d}` sent on socket generation
`gen`. -/
structure GwFrame where
  gen : Nat
  op : Nat
  d : Payload
  deriving DecidableEq, Repr

/-- Observable actions of the gateway handler. -/
inductive GwAct
  | connect (gen : Nat)
  | close (gen : Nat) (code : Nat)
  | sleepJitter
  | startTimer
  | stopTimer
  | frame (f : GwFrame)
  | raiseInvalidSession
  | pyError
  deriving DecidableEq, Repr

/-- The mutable state of `GatewayHandler` (plus the handler's `Bot`
fields it reads: `token`, `intents`).  `gen` is the generation of the
current `Gateway` socket, `hasHeartbeat` whether `self.heartbeat` is not
`None`. -/
structure HState where
  sequence : Option Int
  session_id : Option String
  acked : Bool
  hasHeartbeat : Bool
  heartbeat_interval : ℚ
  gen : Nat
  token : String
  intents : Nat
  shard_id : Option Nat
  shard_count : Option Nat
  deriving Repr

/-- `GatewayHandler.close_and_resume`: close the socket with code 1002,
connect a fresh socket, and send
`Resume {"seq": sequence, "session_id": session_id, "token": token}`
(op 6) on it. -/
def close_and_resume (s : HState) : HState × List GwAct :=
  ({ s with gen := s.gen + 1 },
   [GwAct.close s.gen 1002, GwAct.connect (s.gen + 1),
    GwAct.frame ⟨s.gen + 1, 6, .resume s.sequence s.session_id s.token⟩])

/-- `Heartbeat.send`: when the previous heartbeat was not acked, stop the
timer and `close_and_resume`; then — unconditionally, the source has no
early return — send `{"op": 1, "d": sequence}` on the (possibly new)
socket. -/
def heartbeat_send (s : HState) : HState × List GwAct :=
  let p :=
    if s.acked then (s, [])
    else ((close_and_resume s).1, GwAct.stopTimer :: (close_and_resume s).2)
  (p.1, p.2 ++ [GwAct.frame ⟨p.1.gen, 1, .heartbeat p.1.sequence⟩])

/-- The `shard` field of the identify payload: present only when both
`shard_id` and `shard_count` are set. -/
def shardOf (s : HState) : Option (Nat × Nat) :=
  match s.shard_id, s.shard_count with
  | some i, some c => some (i, c)
  | _, _ => none

/-- `GatewayHandler.identify`: send op 2 with token, properties,
`compress = True`, `large_threshold = 250`, intents, and the optional
shard pair. -/
def gw_identify (s : HState) : List GwAct :=
  [GwAct.frame ⟨s.gen, 2, .identify s.token true 250 s.intents
    (shardOf s)⟩]

/-- `GatewayHandler.handle_hello`: record the interval (milliseconds
divided by 1000), construct the `Heartbeat`, sleep a random fraction of
the interval, send the first heartbeat, start the timer task. -/
def handle_hello (s : HState) (interval_ms : ℚ) : HState × List GwAct :=
  let s := { s with
    heartbeat_interval := interval_ms / 1000,
    hasHeartbeat := true }
  ((heartbeat_send s).1,
   [GwAct.sleepJitter] ++ (heartbeat_send s).2 ++ [GwAct.startTimer])

/-- The decoded `d` payload of an inbound gateway message, for the opcodes
the handler reads data from. -/
inductive MsgData
  | empty
  | hello (heartbeat_interval : ℚ)
  | invalidSession (resumable : Bool)
  deriving Repr

/-- An inbound gateway message `{"op": op, "s": s, "d": d}`. -/
structure Msg where
  op : Nat
  s : Option Int
  d : MsgData
  deriving Repr

/-- `GatewayHandler.handle_message`: update `sequence` when the message
carries one, then dispatch on the opcode (0 dispatch — returned to the
caller, 1 heartbeat request, 7 reconnect, 9 invalid session, 10 hello,
11 heartbeat ack; anything else is ignored).  The boolean is `true` when
the message is a dispatch handed to the caller. -/
def handle_message (s : HState) (m : Msg) : HState × List GwAct × Bool :=
  let s := match m.s with
    | some v => { s with sequence := some v }
    | none => s
  if m.op = 0 then (s, [], true)
  else if m.op = 1 then
    if s.hasHeartbeat then
      ((heartbeat_send s).1, (heartbeat_send s).2, false)
    else (s, [], false)
  else if m.op = 7 then
    ((close_and_resume s).1, (close_and_resume s).2, false)
  else if m.op = 9 then
    match m.d with
    | .invalidSession true =>
      ((close_and_resume s).1, (close_and_resume s).2, false)
    | .invalidSession false => (s, [GwAct.raiseInvalidSession], false)
    | _ => (s, [GwAct.raiseInvalidSession], false)
  else if m.op = 10 then
    match m.d with
    | .hello iv =>
      ((handle_hello s iv).1, (handle_hello s iv).2, false)
    | _ => (s, [GwAct.pyError], false)
  else if m.op = 11 then ({ s with acked := true }, [], false)
  else (s, [], false)

/-- `GatewayHandler.reconnect`: connect a fresh socket, handle the first
received message (the server's Hello), then send *Identify* (the source
calls `self.identify()`, not `self.resume()`). -/
def gw_reconnect (s : HState) (incoming : Msg) : HState × List GwAct :=
  let s := { s with gen := s.gen + 1 }
  let h := handle_message s incoming
  (h.1, [GwAct.connect s.gen] ++ h.2.1 ++ gw_identify h.1)

/-- The close codes `Bot.connect` re-raises as fatal (auth failure,
invalid shard, sharding required, invalid API version, invalid intents,
disallowed intents). -/
def fatalCloseCodes : List Nat := [4004, 4010, 4011, 4012, 4013, 4014]

/-- The `except GatewayClosure` arm of `Bot.connect`: re-raise when the
close code is one of the fatal ones, otherwise clear the per-connection
caches and `reconnect` (`none` = the closure propagates as fatal). -/
def bot_handle_closure (s : HState) (close_code : Option Nat)
    (incoming : Msg) : Option (HState × List GwAct) :=
  match close_code with
  | some c =>
    if c ∈ fatalCloseCodes then none else some (gw_reconnect s incoming)
  | none => some (gw_reconnect s incoming)

/-- The ops of the outbound frames in a trace, in order. -/
def frameOpsOf (acts : List GwAct) : List Nat :=
  acts.filterMap (fun a => match a with | .frame f => some f.op | _ => none)

/-- The outbound frames of a trace, in order. -/
def framesOf (acts : List GwAct) : List GwFrame :=
  acts.filterMap (fun a => match a with | .frame f => some f | _ => none)

/-- A concrete resumable session: it has a sequence and a session id and
its last heartbeat was acked. -/
def sessC2 : HState :=
  { sequence := some 42, session_id := some "sess", acked := true,
    hasHeartbeat := true, heartbeat_interval := 0, gen := 0,
    token := "tok", intents := 513, shard_id := none, shard_count := none }

/-- A Hello message with a 41250 ms heartbeat interval. -/
def helloMsg : Msg := { op := 10, s := none, d := .hello 41250 }

/-- C2 counterexample: after an ordinary (resumable-code 1006)
disconnection of a session holding `sequence = 42` and
`session_id = "sess"`, `Bot.connect` calls `GatewayHandler.reconnect`,
and the outbound control frames on the new socket are a heartbeat (op 1)
followed by an *Identify* (op 2) — the first frame is not a Resume and no
Resume (op 6) is sent at all, contradicting the claim. -/
theorem c2_counterexample_reconnect_sends_identify :
    ((bot_handle_closure sessC2 (some 1006) helloMsg).map
      (fun p => frameOpsOf p.2)) = some [1, 2] ∧
    6 ∉ frameOpsOf
      ((bot_handle_closure sessC2 (some 1006) helloMsg).getD
        (sessC2, [])).2 := by
  exact ⟨by rfl, by decide⟩

lemma close_and_resume_acked (s : HState) :
    ((close_and_resume s).1).acked = s.acked := rfl

lemma heartbeat_send_acked (s : HState) :
    ((heartbeat_send s).1).acked = s.acked := by
  unfold heartbeat_send
  split <;> rfl

lemma handle_hello_acked (s : HState) (iv : ℚ) :
    ((handle_hello s iv).1).acked = s.acked := by
  unfold handle_hello
  rw [heartbeat_send_acked]

lemma handle_message_acked (s : HState) (m : Msg) :
    ((handle_message s m).1).acked = s.acked ∨
      ((handle_message s m).1).acked = true := by
  rcases m with ⟨op, sq, d⟩
  unfold handle_message
  rcases d with _ | iv | b
  all_goals rcases sq with _ | v
  all_goals try cases b
  all_goals
    dsimp only
  all_goals
    split_ifs <;>
      simp [heartbeat_send_acked, handle_hello_acked, close_and_resume_acked]

/-- C6: evaluation of a heartbeat timer tick (`Heartbeat.send`) at
concrete session states, exhibiting both divergences from the claim.
(a) On a tick with the previous heartbeat acked, the handler sends
`{"op": 1, "d": sequence}` but the `acked` flag *stays `true`* — the
source never sets it to `false`, so the "previous heartbeat was never
acked" condition can never become true through the heartbeat cycle
(conjuncts 2–4: no state produced by `heartbeat_send` or by any inbound
message handler has `acked = false`).  (b) On a (hypothetical) tick with
`acked = false`, the handler stops the timer, closes, connects, sends
Resume — and then *still sends a heartbeat* on the new socket, because
`Heartbeat.send` has no early return. -/
theorem c6_heartbeat_tick_divergences :
    (heartbeat_send sessC2).2 = [.frame ⟨0, 1, .heartbeat (some 42)⟩] ∧
    ((heartbeat_send sessC2).1).acked = true ∧
    (∀ s : HState, ((heartbeat_send s).1).acked = s.acked) ∧
    (∀ (s : HState) (m : Msg), ((handle_message s m).1).acked = s.acked ∨
      ((handle_message s m).1).acked = true) ∧
    (heartbeat_send { sessC2 with acked := false }).2 =
      [.stopTimer, .close 0 1002, .connect 1,
       .frame ⟨1, 6, .resume (some 42) (some "sess") "tok"⟩,
       .frame ⟨1, 1, .heartbeat (some 42)⟩] := by
  exact ⟨by decide, by rfl, heartbeat_send_acked, handle_message_acked,
    by decide⟩

/-- C2 (amended): after an ordinary (resumable-code) disconnection,
`Bot.connect` calls `GatewayHandler.reconnect`, which opens a new socket,
handles the server's Hello (sending a first heartbeat after the jitter
sleep), and then sends an *Identify* (op 2) — not a Resume; no Resume
frame is sent on this path at all.  A Resume (op 6) carrying
`{"seq": sequence, "session_id": session_id, "token": token}` is sent
only by `close_and_resume`, i.e. on a server reconnect request (op 7), a
resumable invalid session (op 9), or an unacked heartbeat. -/
theorem c2_amended_ordinary_closure_identifies (s : HState) (code : Nat)
    (iv : ℚ) (hacked : s.acked = true) (hcode : code ∉ fatalCloseCodes) :
    ∃ s2 acts,
      bot_handle_closure s (some code) { op := 10, s := none, d := .hello iv }
          = some (s2, acts) ∧
      framesOf acts =
        [⟨s.gen + 1, 1, .heartbeat s.sequence⟩,
         ⟨s.gen + 1, 2, .identify s.token true 250 s.intents (shardOf s)⟩] ∧
      6 ∉ frameOpsOf acts ∧
      (close_and_resume s).2.getLast? = some (GwAct.frame
        ⟨s.gen + 1, 6, .resume s.sequence s.session_id s.token⟩) := by
  refine ⟨(gw_reconnect s { op := 10, s := none, d := .hello iv }).1,
    (gw_reconnect s { op := 10, s := none, d := .hello iv }).2,
    ?_, ?_, ?_, ?_⟩
  · simp [bot_handle_closure, hcode]
  · simp [gw_reconnect, handle_message, handle_hello, heartbeat_send,
      gw_identify, framesOf, shardOf, hacked]
  · simp [gw_reconnect, handle_message, handle_hello, heartbeat_send,
      gw_identify, frameOpsOf, hacked]
  · simp [close_and_resume]

/-- Witness for `c2_amended_ordinary_closure_identifies` at the concrete
session `sessC2` and the ordinary close code 1006. -/
theorem c2_amended_ordinary_closure_identifies_witness :
    sessC2.acked = true ∧ 1006 ∉ fatalCloseCodes ∧
    (∃ s2 acts,
      bot_handle_closure sessC2 (some 1006)
          { op := 10, s := none, d := .hello 41250 } = some (s2, acts) ∧
      framesOf acts =
        [⟨sessC2.gen + 1, 1, .heartbeat sessC2.sequence⟩,
         ⟨sessC2.gen + 1, 2, .identify sessC2.token true 250 sessC2.intents
           (shardOf sessC2)⟩] ∧
      6 ∉ frameOpsOf acts ∧
      (close_and_resume sessC2).2.getLast? = some (GwAct.frame
        ⟨sessC2.gen + 1, 6,
          .resume sessC2.sequence sessC2.session_id sessC2.token⟩)) :=
  ⟨rfl, by decide,
    c2_amended_ordinary_closure_identifies sessC2 1006 41250 rfl (by decide)⟩

/-! ## Connection rate limiter (`GatewayRatelimiter`, gateway.py) -/

/-- The state of `GatewayRatelimiter`: the start of the current 60-second
window (`time.perf_counter()` value, an exact rational here), the number
of frames counted in it, and the budget `amount`. -/
structure GRL where
  start : ℚ
  sent : Nat
  amount : Nat
  deriving Repr

/-- `GatewayRatelimiter.__init__`. -/
def GRL.init : GRL := { start := 0, sent := 0, amount := 120 }

/-- Observable actions of `Gateway.send`. -/
inductive GRLAct
  | lockAcquire
  | sleep (d : ℚ)
  | sendJson (op : Nat)
  | lockRelease
  deriving Repr

/-- `GatewayRatelimiter.__aenter__`: acquire the lock; if more than 60
seconds have passed since the window start, reset the window to `now` and
the counter to 0; if more frames than the budget have already been
counted, sleep until the window's end (`start + 60 - now`); count this
frame. -/
def GRL.aenter (g : GRL) (now : ℚ) : GRL × List GRLAct :=
  let g := if g.start + 60 < now then { g with start := now, sent := 0 }
    else g
  let acts := if g.sent > g.amount then [GRLAct.sleep (g.start + 60 - now)]
    else []
  ({ g with sent := g.sent + 1 }, GRLAct.lockAcquire :: acts)

/-- `Gateway.send`: `async with self.ratelimiter:` then
`await self.socket.send_json({"op": op, "d": data})` (the `__aexit__`
releases the limiter lock). -/
def gateway_send (g : GRL) (now : ℚ) (op : Nat) : GRL × List GRLAct :=
  ((GRL.aenter g now).1,
    (GRL.aenter g now).2 ++ [GRLAct.sendJson op, GRLAct.lockRelease])

/-- C10: every outbound frame sent through `Gateway.send` first acquires
the connection rate limiter — the trace is lock acquisition, then the
limiter's sleep if due, then the socket send; the limiter resets its
window start (and counter) exactly when more than 60 seconds have elapsed
since the window start, sleeps the acquirer until the window's end
(`start + 60 − now`) exactly when more frames than the budget (120, from
`__init__`) have already been counted in the current window, and counts
each send exactly once. -/
theorem c10_gateway_send_ratelimiter :
    GRL.init.amount = 120 ∧ GRL.init.sent = 0 ∧
    (∀ (g : GRL) (now : ℚ) (op : Nat),
      (gateway_send g now op).2 = GRLAct.lockAcquire ::
        ((if (if g.start + 60 < now then 0 else g.sent) > g.amount then
            [GRLAct.sleep ((if g.start + 60 < now then now else g.start)
              + 60 - now)]
          else []) ++ [GRLAct.sendJson op, GRLAct.lockRelease])) ∧
    (∀ (g : GRL) (now : ℚ),
      ((GRL.aenter g now).1).start =
        if g.start + 60 < now then now else g.start) ∧
    (∀ (g : GRL) (now : ℚ),
      ((GRL.aenter g now).1).sent =
        (if g.start + 60 < now then 0 else g.sent) + 1) ∧
    (∀ (g : GRL) (now : ℚ) (op : Nat),
      (gateway_send g now op).1 = (GRL.aenter g now).1) := by
  refine ⟨rfl, rfl, ?_, ?_, ?_, fun g now op => rfl⟩
  · intro g now op
    unfold gateway_send GRL.aenter
    split <;> split <;> simp_all
  · intro g now
    unfold GRL.aenter
    split <;> simp
  · intro g now
    unfold GRL.aenter
    split <;> simp

/-! ## Frame codec (`Gateway.parse_gateway_message`, gateway.py)

Bytes are `Nat`s.  The persistent streaming decompressor and the JSON
parse are abstracted as a function `decomp` of the accumulated buffer
(the source uses one `zlib.decompressobj()` per connection and
`json.loads`); the claim under study is about *when* a frame is emitted
and *which bytes* are decoded, which this embedding preserves for a
stream carrying one compressed message. -/

/-- The state of the codec: the growing `self._buffer`. -/
structure CodecState where
  buffer : List Nat
  deriving DecidableEq, Repr

/-- The 4-byte zlib flush trailer `b"\x00\x00\xff\xff"`. -/
def zlibSuffix : List Nat := [0, 0, 255, 255]

/-- A WebSocket message: text, or a fragment of the compressed binary
stream. -/
inductive WsData
  | text (s : String)
  | binary (bs : List Nat)
  deriving DecidableEq, Repr

/-- `Gateway.parse_gateway_message`: binary data is appended to the
buffer; if the *chunk* is shorter than 4 bytes or the *chunk's* last 4
bytes (`data[-4:]`) are not the flush trailer, return nothing; otherwise
decompress the accumulated buffer, reset it, and return the decoded
frame.  Text data is decoded directly. -/
def parse_gateway_message (decomp : List Nat → String) (c : CodecState)
    (data : WsData) : CodecState × Option String :=
  match data with
  | .text s => (c, some s)
  | .binary bs =>
    let c := CodecState.mk (c.buffer ++ bs)
    if bs.length < 4 ∨ bs.drop (bs.length - 4) ≠ zlibSuffix then (c, none)
    else (CodecState.mk [], some (decomp c.buffer))

/-- Feed a sequence of WebSocket messages and collect the decoded frames
(the non-`None` results), in order. -/
def feedAll (decomp : List Nat → String) (c : CodecState) :
    List WsData → List String
  | [] => []
  | d :: ds =>
    match parse_gateway_message decomp c d with
    | (c, some s) => s :: feedAll decomp c ds
    | (c, none) => feedAll decomp c ds

/-- A stand-in decompressor for concrete runs. -/
def constDecomp : List Nat → String := fun _ => "frame"

/-- C8 counterexample: the completeness test looks at the last 4 bytes of
the *fed chunk*, not of the accumulated buffer, so feeding the 5-byte
compressed message `[1, 0, 0, 255, 255]` byte-by-byte yields *no* decoded
frames (every 1-byte chunk fails the `len(data) < 4` test), while feeding
it as one chunk yields one frame — the sequences differ, refuting the
for-every-split idempotence claim. -/
theorem c8_counterexample_bytewise_differs :
    feedAll constDecomp (CodecState.mk [])
        [.binary [1, 0, 0, 255, 255]] = ["frame"] ∧
    feedAll constDecomp (CodecState.mk [])
        [.binary [1], .binary [0], .binary [0], .binary [255],
         .binary [255]] = [] ∧
    feedAll constDecomp (CodecState.mk [])
        [.binary [1], .binary [0], .binary [0], .binary [255],
         .binary [255]] ≠
      feedAll constDecomp (CodecState.mk [])
        [.binary [1, 0, 0, 255, 255]] := by
  exact ⟨by decide, by decide, by decide⟩

lemma feedAll_no_emit (decomp : List Nat → String) :
    ∀ (cs : List (List Nat)) (c : CodecState) (ds : List WsData),
      (∀ x ∈ cs, x.length < 4 ∨ x.drop (x.length - 4) ≠ zlibSuffix) →
      feedAll decomp c (cs.map .binary ++ ds) =
        feedAll decomp (CodecState.mk (c.buffer ++ cs.flatten)) ds := by
  intro cs
  induction cs with
  | nil =>
    intro c ds h
    cases c
    simp
  | cons x xs ih =>
    intro c ds h
    have hx := h x (List.mem_cons_self x xs)
    have hstep : parse_gateway_message decomp c (.binary x) =
        (CodecState.mk (c.buffer ++ x), none) := by
      unfold parse_gateway_message
      simp only [if_pos hx]
    simp only [List.map_cons, List.cons_append, feedAll, hstep,
      List.append_eq]
    rw [ih (CodecState.mk (c.buffer ++ x)) ds
      (fun y hy => h y (List.mem_cons_of_mem x hy))]
    simp [List.append_assoc]

lemma drop_last_four (a l : List Nat) (h : 4 ≤ l.length) :
    (a ++ l).drop ((a ++ l).length - 4) = l.drop (l.length - 4) := by
  have h2 : (a ++ l).length - 4 = a.length + (l.length - 4) := by
    simp only [List.length_append]
    omega
  rw [h2, List.drop_append]

/-- C8 (amended): chunk-split invariance holds only for splits in which
the *final* chunk of each compressed message is itself at least 4 bytes
long and ends with the flush trailer (and no earlier chunk passes that
test): such a split yields exactly the same single decoded frame as
feeding the message whole, the decompressor seeing the identical
accumulated bytes.  (Byte-by-byte feeding, whose chunks are all shorter
than 4 bytes, yields no frames at all — see the counterexample.) -/
theorem c8_amended_chunking (decomp : List Nat → String)
    (cs : List (List Nat)) (l : List Nat)
    (hcs : ∀ x ∈ cs, x.length < 4 ∨ x.drop (x.length - 4) ≠ zlibSuffix)
    (hl4 : 4 ≤ l.length) (hsuf : l.drop (l.length - 4) = zlibSuffix) :
    feedAll decomp (CodecState.mk []) ((cs ++ [l]).map .binary) =
        [decomp (cs.flatten ++ l)] ∧
    feedAll decomp (CodecState.mk []) [.binary (cs.flatten ++ l)] =
        [decomp (cs.flatten ++ l)] := by
  have hpass : ∀ (c : CodecState) (bs : List Nat), 4 ≤ bs.length →
      bs.drop (bs.length - 4) = zlibSuffix →
      parse_gateway_message decomp c (.binary bs) =
        (CodecState.mk [], some (decomp (c.buffer ++ bs))) := by
    intro c bs h4 hs
    have hcond : ¬ (bs.length < 4 ∨ bs.drop (bs.length - 4) ≠ zlibSuffix) := by
      push_neg
      exact ⟨by omega, hs⟩
    unfold parse_gateway_message
    dsimp only
    rw [if_neg hcond]
  constructor
  · rw [List.map_append]
    rw [feedAll_no_emit decomp cs (CodecState.mk []) _ hcs]
    simp only [List.map_cons, List.map_nil, feedAll, List.nil_append]
    rw [hpass _ l hl4 hsuf]
  · have h4 : 4 ≤ (cs.flatten ++ l).length := by
      simp only [List.length_append]
      omega
    have hs : (cs.flatten ++ l).drop ((cs.flatten ++ l).length - 4) =
        zlibSuffix := by
      rw [drop_last_four _ _ hl4, hsuf]
    simp only [feedAll, hpass _ _ h4 hs]
    rfl

/-- Witness for `c8_amended_chunking`: the message `[1,2] ++
[3,0,0,255,255]` split as chunks `[1,2]` and `[3,0,0,255,255]`. -/
theorem c8_amended_chunking_witness :
    (∀ x ∈ [[1, 2]], List.length x < 4 ∨
      x.drop (x.length - 4) ≠ zlibSuffix) ∧
    4 ≤ List.length [3, 0, 0, 255, 255] ∧
    List.drop (List.length [3, 0, 0, 255, 255] - 4) [3, 0, 0, 255, 255] =
      zlibSuffix ∧
    (feedAll constDecomp (CodecState.mk [])
        (([[1, 2]] ++ [[3, 0, 0, 255, 255]]).map .binary) =
        [constDecomp (List.flatten [[1, 2]] ++ [3, 0, 0, 255, 255])] ∧
     feedAll constDecomp (CodecState.mk [])
        [.binary (List.flatten [[1, 2]] ++ [3, 0, 0, 255, 255])] =
        [constDecomp (List.flatten [[1, 2]] ++ [3, 0, 0, 255, 255])]) :=
  ⟨by decide, by decide, by decide,
    c8_amended_chunking constDecomp [[1, 2]] [3, 0, 0, 255, 255]
      (by decide) (by decide) (by decide)⟩

/-! ## Interleaving semantics of concurrent `HTTP.request` callers

Each task runs the body of `HTTP.request` on the shared `HTTP` state;
program counters sit at the `await` suspension points of the coroutine
(everything between two awaits runs atomically on the event loop).  A
schedule is a list of task indices; a scheduled task that is blocked
(lock held by another task, or `Event.wait()` on an unset event) makes no
step.  A task is "physically in flight" between its transport send and
the arrival of its response. -/

/-- Program counters of one `HTTP.request` caller, at the coroutine's
suspension points.  `tryN` is the loop variable `try_`. -/
inductive Pc
  | start
  | acquiring
  | gateWaiting
  | sending (tryN : Nat)
  | receiving (tryN : Nat)
  | sleeping429 (tryN : Nat) (global_ : Bool)
  | sleepingRetry (tryN : Nat)
  | exiting (res : Except ReqError RespData)
  | done (res : Except ReqError RespData)
  deriving Repr

/-- One `HTTP.request` caller: its arguments, its scripted transport
responses (`resps[i]` answers attempt `i`), and its run state. -/
structure Task where
  pc : Pc
  route_key : String
  channel_id : Option Nat
  guild_id : Option Nat
  webhook_id : Option Nat
  webhook_token : Option String
  global_ : Bool
  bid : Nat
  resps : List Resp
  inFlight : Bool
  lastStatus : Nat
  deriving Repr

/-- The whole system: the tasks and the shared `HTTP` state. -/
structure Sys where
  tasks : List Task
  sh : Shared
  deriving Repr

/-- Replace task `i`. -/
def setTask (sys : Sys) (i : Nat) (t : Task) : Sys :=
  { sys with tasks := sys.tasks.set i t }

/-- Advance one task by one atomic step (up to its next suspension
point); a blocked or finished task is left unchanged. -/
def stepTask (sys : Sys) (i : Nat) : Sys :=
  match sys.tasks.get? i with
  | none => sys
  | some t =>
    match t.pc with
    | .start =>
      -- `Bucket.from_major_parameters` runs synchronously, then the task
      -- suspends in `lock.acquire()`.
      let p := from_major_parameters sys.sh t.route_key t.global_
        t.channel_id t.guild_id t.webhook_id t.webhook_token
      setTask { sys with sh := p.2 } i { t with bid := p.1, pc := .acquiring }
    | .acquiring =>
      match sys.sh.obj t.bid with
      | none => sys
      | some b =>
        if b.locked then sys
        else
          -- the lock is granted; the rest of `__aenter__` runs
          -- synchronously: when the gate event is set (and the bucket is
          -- global) the coroutine enters `Event.wait()`, else it
          -- proceeds to the first send.
          let sh := sys.sh.setObj t.bid { b with locked := true }
          if sh.gate && b.global_ then
            setTask { sys with sh := sh } i { t with pc := .gateWaiting }
          else
            setTask { sys with sh := sh } i { t with pc := .sending 0 }
    | .gateWaiting =>
      -- `asyncio.Event.wait()` completes exactly when the event is set.
      if sys.sh.gate then setTask sys i { t with pc := .sending 0 }
      else sys
    | .sending tryN =>
      setTask sys i { t with inFlight := true, pc := .receiving tryN }
    | .receiving tryN =>
      match t.resps.get? tryN with
      | none => sys
      | some r =>
        match sys.sh.obj t.bid with
        | none => sys
        | some b =>
          let h := handle_ratelimit_sync b sys.sh t.bid r 0
          let sh := h.2.1.setObj t.bid h.1
          let t := { t with inFlight := false, lastStatus := r.status }
          match h.2.2.2 with
          | .raised e =>
            setTask { sys with sh := sh } i
              { t with pc := .exiting (.error e) }
          | .sleep429 g _ =>
            setTask { sys with sh := sh } i
              { t with pc := .sleeping429 tryN g }
          | .normal =>
            match classify r tryN with
            | .finish res =>
              setTask { sys with sh := sh } i { t with pc := .exiting res }
            | .continue_ _ =>
              setTask { sys with sh := sh } i
                { t with pc := .sleepingRetry tryN }
    | .sleeping429 tryN g =>
      -- the `asyncio.sleep(retry_after)` elapses; clear the gate when
      -- this 429 was global, then run the next loop iteration.
      let sh := if g then { sys.sh with gate := false } else sys.sh
      if tryN + 1 < 3 then
        setTask { sys with sh := sh } i { t with pc := .sending (tryN + 1) }
      else
        setTask { sys with sh := sh } i
          { t with pc := .exiting (.error (exhaustError t.lastStatus)) }
    | .sleepingRetry tryN =>
      if tryN + 1 < 3 then
        setTask sys i { t with pc := .sending (tryN + 1) }
      else
        setTask sys i
          { t with pc := .exiting (.error (exhaustError t.lastStatus)) }
    | .exiting res =>
      match sys.sh.obj t.bid with
      | none => sys
      | some b =>
        let e := Bucket.aexit b sys.sh t.bid 0 false
        setTask { sys with sh := e.2.1.setObj t.bid e.1 } i
          { t with pc := .done res }
    | .done _ => sys

/-- Run a schedule. -/
def runSched (sys : Sys) (sched : List Nat) : Sys :=
  sched.foldl stepTask sys

/-- A 502 response that also discloses the real bucket id `"abc"` (and a
non-zero `remaining`). -/
def resp502abc : Resp :=
  { status := 502, remaining := some 5, bucketHeader := some "abc" }

/-- A fresh caller of `(route_key, channel_id)` with scripted responses. -/
def mkTask (route_key : String) (cid : Nat) (resps : List Resp) : Task :=
  { pc := .start, route_key := route_key, channel_id := some cid,
    guild_id := none, webhook_id := none, webhook_token := none,
    global_ := true, bid := 0, resps := resps, inFlight := false,
    lastStatus := 0 }

/-- C1 scenario: two callers of the same route and major parameters.
Caller A's first attempt gets a 502 that discloses the bucket id;
caller B is issued while A is in its retry back-off sleep. -/
def sysC1 : Sys :=
  { tasks := [mkTask "GET/c" 1 [resp502abc, resp200],
              mkTask "GET/c" 1 [resp200]],
    sh := Shared.init }

/-- The schedule: A resolves, acquires, sends, receives the 502 (which
migrates the bucket under the broken key) and sleeps; B resolves (missing
the migrated bucket, allocating a fresh one), acquires the fresh lock and
sends; A wakes and sends its retry. -/
def schedC1 : List Nat := [0, 0, 0, 0, 1, 1, 1, 0, 0]

/-- C1: a reachable interleaving puts *two* requests for the same
`(route template, major parameters)` scope physically in flight at the
same instant.  After caller A's 502 response migrated the bucket under
the separator-less key, caller B — same route, same major parameters —
resolves a *fresh* bucket object (id 1, a fresh unheld lock), so B's send
overlaps A's in-flight retry.  Each request does hold *its own* resolved
bucket's lock; mutual exclusion per scope is nevertheless violated. -/
theorem c1_two_in_flight_same_scope :
    ((runSched sysC1 schedC1).tasks.map Task.inFlight = [true, true]) ∧
    ((runSched sysC1 schedC1).tasks.map Task.bid = [0, 1]) ∧
    ((runSched sysC1 schedC1).tasks.map Task.route_key =
      ["GET/c", "GET/c"]) ∧
    ((runSched sysC1 schedC1).tasks.map Task.channel_id =
      [some 1, some 1]) ∧
    ((runSched sysC1 schedC1).sh.obj 0).map BucketState.locked =
      some true ∧
    ((runSched sysC1 schedC1).sh.obj 1).map BucketState.locked =
      some true := by
  exact ⟨by decide, by decide, by decide, by decide, by decide, by decide⟩

/-- C3 scenario: caller A (bucket of route `GET/a`) receives a *global*
429 and is sleeping its `retry_after` with the global gate set; caller B
targets an unrelated bucket (route `GET/b`). -/
def sysC3 : Sys :=
  { tasks := [mkTask "GET/a" 1 [resp429global],
              mkTask "GET/b" 2 [resp200]],
    sh := Shared.init }

/-- The schedule: A resolves, acquires, sends, receives the global 429
(setting the gate) and starts its sleep; B resolves, acquires its own
lock, reaches the gate check — `is_set()` is true, so it enters
`Event.wait()` — and the wait *completes immediately* because the event
is set, so B proceeds to send. -/
def schedC3 : List Nat := [0, 0, 0, 0, 1, 1, 1, 1]

/-- C3: while the global gate is still set (caller A is still inside the
`retry_after` sleep, which is what clears it), caller B's request *is*
dispatched to the transport: `Event.wait()` returns at once for a set
event, so the gate blocks nobody.  The final state has the gate still set
and B physically in flight — contradicting the claim that no bucket
admits a request until the gate clears. -/
theorem c3_request_dispatched_while_gate_set :
    (runSched sysC3 schedC3).sh.gate = true ∧
    ((runSched sysC3 schedC3).tasks.map Task.inFlight = [false, true]) ∧
    ((runSched sysC3 schedC3).tasks.map Task.bid = [0, 1]) := by
  exact ⟨by decide, by decide, by decide⟩

end Quarrel
